import Mathlib

/-!
# Verification of the Star Wars CRUD API (`src/app.py`)

Shallow embedding of the Flask request handlers in `src/app.py`.  Each
entity family (User, Character, Planet, Vehicle, Favorite) has handlers
that differ only in which fields are required, which field is unique and
which optional fields exist; we capture that data in a `Schema` and give
one generic definition per handler shape, instantiated once per entity
under the handler's source name.

A parsed JSON body is an association list from field names to values,
where a value is `Option String` (`none` models JSON `null`).  The store
is the list of persisted records in insertion order.  `db.session.commit()`
may fail; the handlers model that with an explicit `commitOk : Bool`
parameter: on `false` the `except` branch runs (`db.session.rollback()`
followed by `abort(500)`), leaving the store as it was.
-/

/-- A JSON field value as the handlers see it: `none` models JSON `null`,
`some s` a string.  (The optional numeric fields are only moved around by
the handlers, never computed with, so strings model them faithfully.) -/
abbrev Val := Option String

/-- A parsed JSON object: association list of keys to values.  Lookup
takes the first binding, matching Python dict access on unique keys. -/
abbrev Body := List (String × Val)

/-- Python truthiness of a field value: `None` and `""` are falsy
(the handlers test `not body[field]`). -/
def truthyVal : Val → Bool
  | none => false
  | some s => s ≠ ""

/-- One persisted record: the surrogate integer identifier plus its
named fields. -/
structure Rec where
  id : Nat
  fields : List (String × Val)
deriving DecidableEq, Repr

/-- Reading attribute `f` of a stored record (e.g. `user.email`);
a field never set reads as `null`. -/
def getF (r : Rec) (f : String) : Val :=
  (r.fields.lookup f).join

/-- Per-entity metadata: the fields the create/update handlers access
with `body[f]` and validate on create (`required`), the field checked
with `filter_by(...).first()` for duplicates (`uniqueField`), and the
fields accessed with `body.get(f)` (`optionalFields`). -/
structure Schema where
  required : List String
  uniqueField : String
  optionalFields : List String
deriving DecidableEq, Repr

/-- `Model.query.filter_by(field=v).first()`: the first stored record
whose field equals `v`. -/
def filterByFirst (store : List Rec) (f : String) (v : Val) : Option Rec :=
  store.find? (fun r => decide (getF r f = v))

/-- `Model.query.get(rid)`: point lookup by identifier. -/
def queryGet (store : List Rec) (rid : Nat) : Option Rec :=
  store.find? (fun r => decide (r.id = rid))

/-- Modelled from the spec: the persistence engine (the ORM models in
`models.py`, which is not under `src/`) assigns every inserted record a
newly assigned surrogate integer identifier ("assigns a new identifier,
persists, returns the persisted record with identifier populated").  We
model it as one more than the largest identifier currently stored. -/
def nextId (store : List Rec) : Nat :=
  (store.map Rec.id).foldr max 0 + 1

/-- The test of one round of the create handlers' validation loop:
`if field not in body or not body[field]`. -/
def missingOrEmpty (b : Body) (f : String) : Bool :=
  match b.lookup f with
  | none => true
  | some v => ! truthyVal v

/-- The field set the entity constructor receives:
`Entity(req=body[...], ..., opt=body.get(...), ...)` — required fields
take the body's value, optional fields take `body.get(f)`, i.e. the
body's value or `null` when absent. -/
def buildFields (sch : Schema) (b : Body) : List (String × Val) :=
  (sch.required.map fun f => (f, (b.lookup f).join))
    ++ (sch.optionalFields.map fun f => (f, (b.lookup f).join))

/-- A mutating handler's outcome: HTTP status, the serialized record
returned on success (if any), and the store afterwards. -/
structure HResp where
  status : Nat
  record : Option Rec
  store : List Rec
deriving DecidableEq, Repr

/-- The create handlers (`create_user`, `create_character`,
`create_planet`, `create_vehicle`): reject a missing/empty body with
400, a missing or empty required field with 422 (first offending field,
checked in order), a unique-field collision with 409; otherwise build
the record, `db.session.add` + `commit` (500 with rollback on failure),
and return 201 with the persisted record. -/
def createE (sch : Schema) (store : List Rec) (body : Option Body)
    (commitOk : Bool) : HResp :=
  match body with
  | none => ⟨400, none, store⟩
  | some b =>
    if b.isEmpty then ⟨400, none, store⟩
    else
      match sch.required.find? (missingOrEmpty b) with
      | some _ => ⟨422, none, store⟩
      | none =>
        match filterByFirst store sch.uniqueField
            ((b.lookup sch.uniqueField).join) with
        | some _ => ⟨409, none, store⟩
        | none =>
          if commitOk then
            let r : Rec := ⟨nextId store, buildFields sch b⟩
            ⟨201, some r, store ++ [r]⟩
          else ⟨500, none, store⟩

/-- The update handlers' collision guard:
`if 'email' in body and body['email'] != user.email:` followed by
`filter_by(email=body['email']).first()` being non-`None`. -/
def updConflict (sch : Schema) (store : List Rec) (r : Rec) (b : Body) :
    Bool :=
  match b.lookup sch.uniqueField with
  | none => false
  | some v =>
    decide (v ≠ getF r sch.uniqueField)
      && (filterByFirst store sch.uniqueField v).isSome

/-- The update handlers (`update_user`, `update_character`,
`update_planet`, `update_vehicle`): 404 when the identifier is unknown,
then 400 on a missing/empty body, then the collision guard (409).  The
`try` block assigns `body[f]` for every required field — a `KeyError`
when one is absent — sets every optional field to `body.get(f)`, and
commits; any exception runs `db.session.rollback(); abort(500)`.  On
success the record is overwritten in place and returned with 200. -/
def updateE (sch : Schema) (store : List Rec) (rid : Nat)
    (body : Option Body) (commitOk : Bool) : HResp :=
  match queryGet store rid with
  | none => ⟨404, none, store⟩
  | some r =>
    match body with
    | none => ⟨400, none, store⟩
    | some b =>
      if b.isEmpty then ⟨400, none, store⟩
      else if updConflict sch store r b then ⟨409, none, store⟩
      else if (sch.required.all fun f => (b.lookup f).isSome) && commitOk
      then
        let r2 : Rec := ⟨r.id, buildFields sch b⟩
        ⟨200, some r2, store.map fun x => if x.id = rid then r2 else x⟩
      else ⟨500, none, store⟩

/-- The delete handlers (`delete_user`, `delete_character`,
`delete_planet`, `delete_vehicle`): 404 when the identifier is unknown,
otherwise `db.session.delete` + `commit` (500 with rollback on failure)
and 200.  The fetched record — the first with that identifier — is
removed. -/
def deleteE (store : List Rec) (rid : Nat) (commitOk : Bool) : HResp :=
  match queryGet store rid with
  | none => ⟨404, none, store⟩
  | some _ =>
    if commitOk then
      ⟨200, none, store.eraseP fun r => decide (r.id = rid)⟩
    else ⟨500, none, store⟩

/-- A read-by-key handler's outcome; the store is returned so that
purity of reads is a stated property rather than a convention. -/
structure ReadResp where
  status : Nat
  found : Option Rec
  store : List Rec
deriving DecidableEq, Repr

/-- The read-by-identifier handlers (`get_user_by_id`, ...,
`get_favorite_by_id`): 404 when absent, else 200 with the record. -/
def getByIdE (store : List Rec) (rid : Nat) : ReadResp :=
  match queryGet store rid with
  | none => ⟨404, none, store⟩
  | some r => ⟨200, some r, store⟩

/-- The read-by-unique-field handlers (`get_user_by_email`,
`get_character_by_name`, ...): `filter_by(field=v).first()`, 404 when
absent, else 200. -/
def getByUniqueE (store : List Rec) (f : String) (v : Val) : ReadResp :=
  match filterByFirst store f v with
  | none => ⟨404, none, store⟩
  | some r => ⟨200, some r, store⟩

/-- A list-all handler's outcome. -/
structure ListResp where
  status : Nat
  records : List Rec
  store : List Rec
deriving DecidableEq, Repr

/-- The list-all handlers (`get_all_users`, ..., `get_all_favorites`):
`Model.query.all()` serialized, status 200. -/
def getAllE (store : List Rec) : ListResp :=
  match store with
  | s => ⟨200, s, s⟩

/-- Field metadata of `User` (`email`/`password` required via
`body[...]`, `email` unique, `first_name`/`last_name` via `body.get`). -/
def userSchema : Schema :=
  ⟨["email", "password"], "email", ["first_name", "last_name"]⟩

/-- Field metadata of `Character`. -/
def characterSchema : Schema :=
  ⟨["name"], "name", ["gender", "height", "mass"]⟩

/-- Field metadata of `Planet`. -/
def planetSchema : Schema :=
  ⟨["name"], "name", ["climate", "population", "terrain"]⟩

/-- Field metadata of `Vehicle`. -/
def vehicleSchema : Schema :=
  ⟨["name"], "name", ["cargo_capacity", "length", "model"]⟩

/-- The four entity families with full CRUD handlers. -/
def entitySchemas : List Schema :=
  [userSchema, characterSchema, planetSchema, vehicleSchema]

/-- `POST /users`. -/
def create_user (store : List Rec) (body : Option Body) (ok : Bool) :
    HResp := createE userSchema store body ok

/-- `PUT /users/<user_id>`. -/
def update_user (store : List Rec) (uid : Nat) (body : Option Body)
    (ok : Bool) : HResp := updateE userSchema store uid body ok

/-- `DELETE /users/<user_id>`. -/
def delete_user (store : List Rec) (uid : Nat) (ok : Bool) : HResp :=
  deleteE store uid ok

/-- `GET /users`. -/
def get_all_users (store : List Rec) : ListResp := getAllE store

/-- `GET /users/<user_id>`. -/
def get_user_by_id (store : List Rec) (uid : Nat) : ReadResp :=
  getByIdE store uid

/-- `GET /users-by-email/<email>`. -/
def get_user_by_email (store : List Rec) (email : String) : ReadResp :=
  getByUniqueE store "email" (some email)

/-- `POST /characters`. -/
def create_character (store : List Rec) (body : Option Body) (ok : Bool) :
    HResp := createE characterSchema store body ok

/-- `PUT /characters/<character_id>`. -/
def update_character (store : List Rec) (cid : Nat) (body : Option Body)
    (ok : Bool) : HResp := updateE characterSchema store cid body ok

/-- `DELETE /characters/<character_id>`. -/
def delete_character (store : List Rec) (cid : Nat) (ok : Bool) : HResp :=
  deleteE store cid ok

/-- `GET /characters`. -/
def get_all_characters (store : List Rec) : ListResp := getAllE store

/-- `GET /characters/<id>`. -/
def get_character_by_id (store : List Rec) (cid : Nat) : ReadResp :=
  getByIdE store cid

/-- `GET /characters/<name>`. -/
def get_character_by_name (store : List Rec) (name : String) : ReadResp :=
  getByUniqueE store "name" (some name)

/-- `POST /planets`. -/
def create_planet (store : List Rec) (body : Option Body) (ok : Bool) :
    HResp := createE planetSchema store body ok

/-- `PUT /planets/<planet_id>`. -/
def update_planet (store : List Rec) (pid : Nat) (body : Option Body)
    (ok : Bool) : HResp := updateE planetSchema store pid body ok

/-- `DELETE /planets/<planet_id>`. -/
def delete_planet (store : List Rec) (pid : Nat) (ok : Bool) : HResp :=
  deleteE store pid ok

/-- `GET /planets`. -/
def get_all_planets (store : List Rec) : ListResp := getAllE store

/-- `GET /planets/<planet_id>`. -/
def get_planet_by_id (store : List Rec) (pid : Nat) : ReadResp :=
  getByIdE store pid

/-- `GET /planets/<name>`. -/
def get_planet_by_name (store : List Rec) (name : String) : ReadResp :=
  getByUniqueE store "name" (some name)

/-- `POST /vehicles`. -/
def create_vehicle (store : List Rec) (body : Option Body) (ok : Bool) :
    HResp := createE vehicleSchema store body ok

/-- `PUT /vehicles/<vehicle_id>`. -/
def update_vehicle (store : List Rec) (vid : Nat) (body : Option Body)
    (ok : Bool) : HResp := updateE vehicleSchema store vid body ok

/-- `DELETE /vehicles/<vehicle_id>`. -/
def delete_vehicle (store : List Rec) (vid : Nat) (ok : Bool) : HResp :=
  deleteE store vid ok

/-- `GET /vehicles`. -/
def get_all_vehicles (store : List Rec) : ListResp := getAllE store

/-- `GET /vehicles/<vehicle_id>`. -/
def get_vehicle_by_id (store : List Rec) (vid : Nat) : ReadResp :=
  getByIdE store vid

/-- `GET /vehicles/<name>`. -/
def get_vehicle_by_name (store : List Rec) (name : String) : ReadResp :=
  getByUniqueE store "name" (some name)

/-- `GET /favorites`. -/
def get_all_favorites (store : List Rec) : ListResp := getAllE store

/-- `GET /favorites/<favorite_id>`. -/
def get_favorite_by_id (store : List Rec) (fid : Nat) : ReadResp :=
  getByIdE store fid

/-! ## Helper lemmas -/

/-- Every member of a list of naturals is bounded by its `foldr max 0`. -/
theorem mem_le_foldr_max {a : Nat} {l : List Nat} (h : a ∈ l) :
    a ≤ l.foldr max 0 := by
  induction l with
  | nil => cases h
  | cons b t ih =>
    simp only [List.foldr_cons]
    rcases List.mem_cons.mp h with h | h
    · exact h ▸ le_max_left _ _
    · exact le_trans (ih h) (le_max_right _ _)

/-- `nextId` is strictly larger than every stored identifier. -/
theorem id_lt_nextId {store : List Rec} {x : Rec} (h : x ∈ store) :
    x.id < nextId store :=
  Nat.lt_succ_of_le (mem_le_foldr_max (List.mem_map_of_mem Rec.id h))

/-- On the empty body every field is missing. -/
theorem missingOrEmpty_nil (f : String) : missingOrEmpty [] f = true := rfl

/-- Every entity schema has at least one required field. -/
theorem schemas_required_ne_nil :
    ∀ sch ∈ entitySchemas, sch.required ≠ [] := by decide

/-- In every entity schema the optional fields are disjoint from the
required fields. -/
theorem schemas_opt_not_req :
    ∀ sch ∈ entitySchemas, ∀ f ∈ sch.optionalFields, f ∉ sch.required := by
  decide

/-- The create handler on the success path: valid body, fresh unique
value, commit succeeds. -/
theorem createE_success (sch : Schema) (store : List Rec) (b : Body)
    (hb : b.isEmpty = false)
    (hreq : sch.required.find? (missingOrEmpty b) = none)
    (hfresh : filterByFirst store sch.uniqueField
      ((b.lookup sch.uniqueField).join) = none) :
    createE sch store (some b) true
      = ⟨201, some ⟨nextId store, buildFields sch b⟩,
          store ++ [⟨nextId store, buildFields sch b⟩]⟩ := by
  have hfresh' : filterByFirst store sch.uniqueField
      ((b.lookup sch.uniqueField).bind fun a => a) = none := hfresh
  simp [createE, hb, hreq, hfresh']

/-- A body satisfying a schema's required-field validation is nonempty
(provided the schema has a required field at all). -/
theorem body_ne_nil_of_required (sch : Schema) (b : Body)
    (hne : sch.required ≠ [])
    (hreq : ∀ f ∈ sch.required, missingOrEmpty b f = false) :
    b.isEmpty = false := by
  cases hb : b with
  | nil =>
    cases hr : sch.required with
    | nil => exact absurd hr hne
    | cons f t =>
      have := hreq f (hr ▸ List.mem_cons_self f t)
      rw [hb] at this
      simp [missingOrEmpty_nil] at this
  | cons p t => rfl

/-- A sample stored user for concrete witnesses. -/
def sampleUser : Rec :=
  ⟨1, [("email", some "e@f.com"), ("password", some "p"),
       ("first_name", none), ("last_name", none)]⟩

/-- C1: for every entity type, a create whose JSON body carries every
required field with a non-empty value and whose unique-field value is
not already stored succeeds with 201 and persists a record whose newly
assigned identifier differs from every existing record's identifier. -/
theorem create_valid_body_returns_201_with_fresh_id
    (sch : Schema) (hsch : sch ∈ entitySchemas)
    (store : List Rec) (b : Body)
    (hreq : ∀ f ∈ sch.required, missingOrEmpty b f = false)
    (hfresh : filterByFirst store sch.uniqueField
      ((b.lookup sch.uniqueField).join) = none) :
    ∃ r, createE sch store (some b) true = ⟨201, some r, store ++ [r]⟩
      ∧ ∀ x ∈ store, r.id ≠ x.id := by
  have hne := schemas_required_ne_nil sch hsch
  have hb := body_ne_nil_of_required sch b hne hreq
  have hfind : sch.required.find? (missingOrEmpty b) = none :=
    List.find?_eq_none.mpr fun f hf => by simp [hreq f hf]
  refine ⟨⟨nextId store, buildFields sch b⟩,
    createE_success sch store b hb hfind hfresh, ?_⟩
  intro x hx
  exact Nat.ne_of_gt (id_lt_nextId hx)

/-- C1 witness: a concrete user create against a one-record store. -/
theorem create_valid_body_returns_201_with_fresh_id_witness :
    ∃ r, createE userSchema [sampleUser]
        (some [("email", some "a@b.com"), ("password", some "x")]) true
      = ⟨201, some r, [sampleUser] ++ [r]⟩
      ∧ ∀ x ∈ [sampleUser], r.id ≠ x.id :=
  create_valid_body_returns_201_with_fresh_id userSchema (by decide)
    [sampleUser] [("email", some "a@b.com"), ("password", some "x")]
    (by decide) (by decide)

/-- C2: for every entity type, when exactly one stored record carries
the body's unique-field value, a well-formed create with that value is
rejected with 409, persists nothing, and the store still holds exactly
one record with that value. -/
theorem create_duplicate_returns_409_persists_nothing
    (sch : Schema) (hsch : sch ∈ entitySchemas)
    (store : List Rec) (b : Body) (ok : Bool)
    (hreq : ∀ f ∈ sch.required, missingOrEmpty b f = false)
    (hcount : store.countP (fun r => decide (getF r sch.uniqueField
      = (b.lookup sch.uniqueField).join)) = 1) :
    createE sch store (some b) ok = ⟨409, none, store⟩
      ∧ (createE sch store (some b) ok).store.countP
          (fun r => decide (getF r sch.uniqueField
            = (b.lookup sch.uniqueField).join)) = 1 := by
  have hne := schemas_required_ne_nil sch hsch
  have hb := body_ne_nil_of_required sch b hne hreq
  have hfind : sch.required.find? (missingOrEmpty b) = none :=
    List.find?_eq_none.mpr fun f hf => by simp [hreq f hf]
  have hdup : ∃ x ∈ store, decide (getF x sch.uniqueField
      = (b.lookup sch.uniqueField).join) = true :=
    List.countP_pos_iff.mp (hcount ▸ Nat.one_pos)
  have hsome : (filterByFirst store sch.uniqueField
      ((b.lookup sch.uniqueField).join)).isSome :=
    List.find?_isSome.mpr hdup
  obtain ⟨r, hr⟩ := Option.isSome_iff_exists.mp hsome
  have hr' : filterByFirst store sch.uniqueField
      ((b.lookup sch.uniqueField).bind fun a => a) = some r := hr
  have h1 : createE sch store (some b) ok = ⟨409, none, store⟩ := by
    simp [createE, hb, hfind, hr']
  exact ⟨h1, by rw [h1]; exact hcount⟩

/-- C2 witness: re-creating the stored user's email yields 409 and the
store keeps exactly one record with that email. -/
theorem create_duplicate_returns_409_persists_nothing_witness :
    createE userSchema [sampleUser]
        (some [("email", some "e@f.com"), ("password", some "y")]) true
      = ⟨409, none, [sampleUser]⟩
      ∧ (createE userSchema [sampleUser]
          (some [("email", some "e@f.com"), ("password", some "y")])
          true).store.countP
          (fun r => decide (getF r userSchema.uniqueField
            = (([("email", some "e@f.com"), ("password", some "y")] :
                Body).lookup userSchema.uniqueField).join)) = 1 :=
  create_duplicate_returns_409_persists_nothing userSchema (by decide)
    [sampleUser] [("email", some "e@f.com"), ("password", some "y")] true
    (by decide) (by decide)

/-- C3: for every entity type, a create whose nonempty body omits a
required field or supplies it empty is rejected with 422 and nothing is
stored — with no hypothesis on the unique field, so a body that also
collides on the unique field still yields 422, not 409. -/
theorem create_missing_required_returns_422
    (sch : Schema) (hsch : sch ∈ entitySchemas)
    (store : List Rec) (b : Body) (ok : Bool) (f : String)
    (hf : f ∈ sch.required) (hmiss : missingOrEmpty b f = true)
    (hb : b.isEmpty = false) :
    createE sch store (some b) ok = ⟨422, none, store⟩ := by
  have hso : (sch.required.find? (missingOrEmpty b)).isSome :=
    List.find?_isSome.mpr ⟨f, hf, hmiss⟩
  obtain ⟨g, hg⟩ := Option.isSome_iff_exists.mp hso
  simp [createE, hb, hg]

/-- C3 witness: a user create that collides on email but omits the
password is rejected with 422, not 409. -/
theorem create_missing_required_returns_422_witness :
    createE userSchema [sampleUser]
        (some [("email", some "e@f.com")]) true
      = ⟨422, none, [sampleUser]⟩ :=
  create_missing_required_returns_422 userSchema (by decide) [sampleUser]
    [("email", some "e@f.com")] true "password" (by decide) (by decide)
    (by decide)

/-- Read-by-identifier never changes the store. -/
theorem getByIdE_store_eq (store : List Rec) (rid : Nat) :
    (getByIdE store rid).store = store := by
  unfold getByIdE
  cases queryGet store rid <;> rfl

/-- Read-by-unique-field never changes the store. -/
theorem getByUniqueE_store_eq (store : List Rec) (f : String) (v : Val) :
    (getByUniqueE store f v).store = store := by
  unfold getByUniqueE
  cases filterByFirst store f v <;> rfl

/-- C10: every read handler of every entity family — list-all, read by
identifier, read by unique field, including the Favorite handlers —
leaves the store unchanged whether it answers 200 or 404. -/
theorem read_handlers_leave_store_unchanged
    (store : List Rec) (rid : Nat) (s : String) :
    (get_all_users store).store = store
  ∧ (get_user_by_id store rid).store = store
  ∧ (get_user_by_email store s).store = store
  ∧ (get_all_characters store).store = store
  ∧ (get_character_by_id store rid).store = store
  ∧ (get_character_by_name store s).store = store
  ∧ (get_all_planets store).store = store
  ∧ (get_planet_by_id store rid).store = store
  ∧ (get_planet_by_name store s).store = store
  ∧ (get_all_vehicles store).store = store
  ∧ (get_vehicle_by_id store rid).store = store
  ∧ (get_vehicle_by_name store s).store = store
  ∧ (get_all_favorites store).store = store
  ∧ (get_favorite_by_id store rid).store = store :=
  ⟨rfl, getByIdE_store_eq store rid, getByUniqueE_store_eq store _ _,
   rfl, getByIdE_store_eq store rid, getByUniqueE_store_eq store _ _,
   rfl, getByIdE_store_eq store rid, getByUniqueE_store_eq store _ _,
   rfl, getByIdE_store_eq store rid, getByUniqueE_store_eq store _ _,
   rfl, getByIdE_store_eq store rid⟩

/-- C9: for every entity type, a parsed-but-empty JSON object is
rejected with 400 ("Request body must be JSON", body truthiness) rather
than 422; on update this test runs only after the identifier lookup, so
an unknown identifier with an empty body still yields 404. -/
theorem empty_object_body_returns_400_update_checks_id_first
    (sch : Schema) (hsch : sch ∈ entitySchemas)
    (store : List Rec) (rid : Nat) (ok : Bool) :
    createE sch store (some []) ok = ⟨400, none, store⟩
  ∧ ((queryGet store rid).isSome →
      updateE sch store rid (some []) ok = ⟨400, none, store⟩)
  ∧ (queryGet store rid = none →
      updateE sch store rid (some []) ok = ⟨404, none, store⟩) := by
  refine ⟨rfl, ?_, ?_⟩
  · intro h
    obtain ⟨r, hr⟩ := Option.isSome_iff_exists.mp h
    simp [updateE, hr]
  · intro h
    simp [updateE, h]

/-- C9 witness: concrete empty-object create and updates against a
one-user store (identifier 1 stored, identifier 2 unknown). -/
theorem empty_object_body_returns_400_update_checks_id_first_witness :
    (createE userSchema [sampleUser] (some []) true
        = ⟨400, none, [sampleUser]⟩
      ∧ ((queryGet [sampleUser] 1).isSome →
          updateE userSchema [sampleUser] 1 (some []) true
            = ⟨400, none, [sampleUser]⟩)
      ∧ (queryGet [sampleUser] 1 = none →
          updateE userSchema [sampleUser] 1 (some []) true
            = ⟨404, none, [sampleUser]⟩))
  ∧ (queryGet [sampleUser] 2 = none →
      updateE userSchema [sampleUser] 2 (some []) true
        = ⟨404, none, [sampleUser]⟩) :=
  ⟨empty_object_body_returns_400_update_checks_id_first userSchema
      (by decide) [sampleUser] 1 true,
   (empty_object_body_returns_400_update_checks_id_first userSchema
      (by decide) [sampleUser] 2 true).2.2⟩

/-- The update handler on the success path: record found, nonempty
body, no collision, every required field present, commit succeeds. -/
theorem updateE_success (sch : Schema) (store : List Rec) (rid : Nat)
    (b : Body) (r : Rec)
    (hget : queryGet store rid = some r)
    (hb : b.isEmpty = false)
    (hconf : updConflict sch store r b = false)
    (hall : (sch.required.all fun f => (b.lookup f).isSome) = true) :
    updateE sch store rid (some b) true
      = ⟨200, some ⟨r.id, buildFields sch b⟩,
          store.map fun x =>
            if x.id = rid then ⟨r.id, buildFields sch b⟩ else x⟩ := by
  simp [updateE, hget, hb, hconf, hall]

/-- C4 counterexample: updating the stored user (identifier 1) with the
nonempty body `{"email": "c@d.com"}`, which omits the required
`password` field, answers 500 — the `try` block's `body['password']`
raises `KeyError`, caught by the blanket `except` — not 422. -/
theorem update_missing_required_not_422_counterexample :
    (updateE userSchema [sampleUser] 1
        (some [("email", some "c@d.com")]) true).status = 500
  ∧ (updateE userSchema [sampleUser] 1
        (some [("email", some "c@d.com")]) true).status ≠ 422 := by
  decide

/-- C4 amended: for every entity type, an update on an existing
identifier whose nonempty body omits a required field — provided the
unique-field collision guard does not fire first — is rejected with 500
(InternalError from the caught `KeyError`), not 422, and the store is
left unchanged. -/
theorem update_missing_required_returns_500_store_unchanged
    (sch : Schema) (hsch : sch ∈ entitySchemas)
    (store : List Rec) (rid : Nat) (b : Body) (r : Rec) (f : String)
    (ok : Bool)
    (hget : queryGet store rid = some r)
    (hb : b.isEmpty = false)
    (hconf : updConflict sch store r b = false)
    (hf : f ∈ sch.required) (hmiss : b.lookup f = none) :
    updateE sch store rid (some b) ok = ⟨500, none, store⟩ := by
  have hall : (sch.required.all fun g => (b.lookup g).isSome) = false :=
    List.all_eq_false.mpr ⟨f, hf, by simp [hmiss]⟩
  simp [updateE, hget, hb, hconf, hall]

/-- C4 witness: the concrete counterexample input run through the
amended statement. -/
theorem update_missing_required_returns_500_store_unchanged_witness :
    updateE userSchema [sampleUser] 1
        (some [("email", some "c@d.com")]) true
      = ⟨500, none, [sampleUser]⟩ :=
  update_missing_required_returns_500_store_unchanged userSchema
    (by decide) [sampleUser] 1 [("email", some "c@d.com")] sampleUser
    "password" true (by decide) (by decide) (by decide) (by decide)
    (by decide)

/-- A field outside `required` reads from the constructed field set as
the body's `body.get(f)` value (or `null` when absent). -/
theorem getF_buildFields_not_req (sch : Schema) (b : Body) (i : Nat)
    (f : String) (hnreq : f ∉ sch.required)
    (hopt : f ∈ sch.optionalFields) :
    getF ⟨i, buildFields sch b⟩ f = (b.lookup f).join := by
  show ((buildFields sch b).lookup f).join = (b.lookup f).join
  unfold buildFields
  rw [List.lookup_append]
  have h1 : ((sch.required.map fun x => (x, (b.lookup x).join)).lookup f)
      = none := by
    rw [List.lookup_eq_none_iff]
    intro p hp
    obtain ⟨x, hx, he⟩ := List.mem_map.mp hp
    subst he
    have hne : f ≠ x := fun e => hnreq (by rw [e]; exact hx)
    simpa using hne
  rw [h1, List.lookup_graph (fun x => (List.lookup x b).join) hopt]
  simp

/-- Overwriting the record with identifier `rid` in place makes the
point lookup return the replacement. -/
theorem queryGet_map_replace {store : List Rec} {rid : Nat} {r r2 : Rec}
    (hget : queryGet store rid = some r) (h2 : r2.id = rid) :
    queryGet (store.map fun x => if x.id = rid then r2 else x) rid
      = some r2 := by
  induction store with
  | nil => simp [queryGet] at hget
  | cons a t ih =>
    by_cases ha : a.id = rid
    · unfold queryGet
      rw [List.map_cons, if_pos ha, List.find?_cons_of_pos _ (by simp [h2])]
    · unfold queryGet at hget ⊢
      rw [List.find?_cons_of_neg _ (by simp [ha])] at hget
      rw [List.map_cons, if_neg ha, List.find?_cons_of_neg _ (by simp [ha])]
      exact ih hget

/-- A second sample stored user whose optional fields hold values. -/
def sampleUser2 : Rec :=
  ⟨1, [("email", some "e@f.com"), ("password", some "p"),
       ("first_name", some "Ann"), ("last_name", some "Lee")]⟩

/-- C5: for every entity type, a successful update replaces the whole
record rather than merging: the updated record — also as re-read from
the store by identifier — has every optional field that the body does
not supply reset to null, whatever it held before. -/
theorem update_resets_unsupplied_optional_fields
    (sch : Schema) (hsch : sch ∈ entitySchemas)
    (store : List Rec) (rid : Nat) (b : Body) (r : Rec)
    (hget : queryGet store rid = some r)
    (hb : b.isEmpty = false)
    (hconf : updConflict sch store r b = false)
    (hall : (sch.required.all fun f => (b.lookup f).isSome) = true) :
    ∃ r2 s2, updateE sch store rid (some b) true = ⟨200, some r2, s2⟩
      ∧ queryGet s2 rid = some r2
      ∧ ∀ f ∈ sch.optionalFields, b.lookup f = none → getF r2 f = none := by
  have hid : r.id = rid := by
    unfold queryGet at hget
    have hp := List.find?_some hget
    exact of_decide_eq_true hp
  refine ⟨⟨r.id, buildFields sch b⟩, _,
    updateE_success sch store rid b r hget hb hconf hall, ?_, ?_⟩
  · exact queryGet_map_replace hget hid
  · intro f hopt hfn
    have hnreq : f ∉ sch.required := schemas_opt_not_req sch hsch f hopt
    rw [getF_buildFields_not_req sch b r.id f hnreq hopt, hfn]
    rfl

/-- C5 witness: updating the stored user, whose `first_name` and
`last_name` are set, with a body that omits both. -/
theorem update_resets_unsupplied_optional_fields_witness :
    ∃ r2 s2, updateE userSchema [sampleUser2] 1
        (some [("email", some "c@d.com"), ("password", some "z")]) true
      = ⟨200, some r2, s2⟩
      ∧ queryGet s2 1 = some r2
      ∧ ∀ f ∈ userSchema.optionalFields,
          (([("email", some "c@d.com"), ("password", some "z")] :
            Body).lookup f) = none → getF r2 f = none :=
  update_resets_unsupplied_optional_fields userSchema (by decide)
    [sampleUser2] 1 [("email", some "c@d.com"), ("password", some "z")]
    sampleUser2 (by decide) (by decide) (by decide) (by decide)

/-- C6: for every entity type, with the unique field present in the
update body, the handler answers 409 precisely when the submitted value
differs from the record's current value and some other stored record
already carries it; in particular re-submitting the record's own value
never yields 409. -/
theorem update_conflict_iff_changed_and_taken
    (sch : Schema) (hsch : sch ∈ entitySchemas)
    (store : List Rec) (rid : Nat) (b : Body) (r : Rec) (v : Val)
    (ok : Bool)
    (hget : queryGet store rid = some r)
    (hb : b.isEmpty = false)
    (hv : b.lookup sch.uniqueField = some v) :
    ((updateE sch store rid (some b) ok).status = 409
      ↔ v ≠ getF r sch.uniqueField
        ∧ ∃ x ∈ store, x ≠ r ∧ getF x sch.uniqueField = v) := by
  cases hc : updConflict sch store r b with
  | true =>
    have h409 : updateE sch store rid (some b) ok = ⟨409, none, store⟩ := by
      simp [updateE, hget, hb, hc]
    rw [h409]
    unfold updConflict at hc
    rw [hv] at hc
    obtain ⟨hne', hsome⟩ := Bool.and_eq_true_iff.mp hc
    have hne : v ≠ getF r sch.uniqueField := of_decide_eq_true hne'
    obtain ⟨x, hx, hpx⟩ := List.find?_isSome.mp hsome
    have hxv : getF x sch.uniqueField = v := of_decide_eq_true hpx
    have hxr : x ≠ r := fun e => hne (by rw [← hxv, e])
    exact ⟨fun _ => ⟨hne, x, hx, hxr, hxv⟩, fun _ => rfl⟩
  | false =>
    have hne409 : (updateE sch store rid (some b) ok).status ≠ 409 := by
      cases hall : (sch.required.all fun f => (b.lookup f).isSome) && ok with
      | true => simp [updateE, hget, hb, hc, hall]
      | false => simp [updateE, hget, hb, hc, hall]
    constructor
    · intro h409
      exact absurd h409 hne409
    · rintro ⟨hne, x, hx, hxr, hxv⟩
      exfalso
      unfold updConflict at hc
      rw [hv] at hc
      have hsome : (filterByFirst store sch.uniqueField v).isSome = true :=
        List.find?_isSome.mpr ⟨x, hx, by simp [hxv]⟩
      have htrue : (decide (v ≠ getF r sch.uniqueField)
          && (filterByFirst store sch.uniqueField v).isSome) = true := by
        rw [hsome, Bool.and_true]
        exact decide_eq_true hne
      have hc' : (decide (v ≠ getF r sch.uniqueField)
          && (filterByFirst store sch.uniqueField v).isSome) = false := hc
      rw [htrue] at hc'
      cases hc'

/-- C6 witness: re-submitting the stored user's own email does not
conflict (both sides of the equivalence are false at this input). -/
theorem update_conflict_iff_changed_and_taken_witness :
    ((updateE userSchema [sampleUser] 1
        (some [("email", some "e@f.com"), ("password", some "q")])
        true).status = 409
      ↔ some "e@f.com" ≠ getF sampleUser userSchema.uniqueField
        ∧ ∃ x ∈ [sampleUser], x ≠ sampleUser
            ∧ getF x userSchema.uniqueField = some "e@f.com") :=
  update_conflict_iff_changed_and_taken userSchema (by decide)
    [sampleUser] 1
    [("email", some "e@f.com"), ("password", some "q")] sampleUser
    (some "e@f.com") true (by decide) (by decide) (by decide)

/-- After erasing the record with identifier `rid`, no record with that
identifier remains, provided stored identifiers are distinct. -/
theorem queryGet_eraseP_self {store : List Rec} {rid : Nat}
    (hnd : (store.map Rec.id).Nodup) :
    queryGet (store.eraseP fun r => decide (r.id = rid)) rid = none := by
  induction store with
  | nil => rfl
  | cons a t ih =>
    rw [List.map_cons, List.nodup_cons] at hnd
    by_cases ha : a.id = rid
    · rw [List.eraseP_cons_of_pos (by simpa using ha)]
      unfold queryGet
      apply List.find?_eq_none.mpr
      intro x hx hpx
      have hxid : x.id = rid := of_decide_eq_true hpx
      exact hnd.1 (ha ▸ hxid ▸ List.mem_map_of_mem Rec.id hx)
    · rw [List.eraseP_cons_of_neg (by simpa using ha)]
      unfold queryGet
      rw [List.find?_cons_of_neg _ (by simpa using ha)]
      exact ih hnd.2

/-- C7: for every entity type, after a successful delete of an existing
identifier the record is gone from the store, a read of that identifier
returns 404, and a second delete of the same identifier also returns
404 while leaving the store unchanged. -/
theorem delete_then_read_404_delete_404
    (store : List Rec) (rid : Nat) (ok : Bool)
    (hget : (queryGet store rid).isSome)
    (hnd : (store.map Rec.id).Nodup) :
    deleteE store rid true
      = ⟨200, none, store.eraseP fun x => decide (x.id = rid)⟩
  ∧ getByIdE (deleteE store rid true).store rid
      = ⟨404, none, (deleteE store rid true).store⟩
  ∧ deleteE (deleteE store rid true).store rid ok
      = ⟨404, none, (deleteE store rid true).store⟩ := by
  obtain ⟨r, hr⟩ := Option.isSome_iff_exists.mp hget
  have h1 : deleteE store rid true
      = ⟨200, none, store.eraseP fun x => decide (x.id = rid)⟩ := by
    simp [deleteE, hr]
  have h2 := @queryGet_eraseP_self store rid hnd
  refine ⟨h1, ?_, ?_⟩
  · rw [h1]
    simp [getByIdE, h2]
  · rw [h1]
    simp [deleteE, h2]

/-- C7 witness: deleting the only stored user, then reading and
deleting identifier 1 again. -/
theorem delete_then_read_404_delete_404_witness :
    deleteE [sampleUser] 1 true
      = ⟨200, none, [sampleUser].eraseP fun x => decide (x.id = 1)⟩
  ∧ getByIdE (deleteE [sampleUser] 1 true).store 1
      = ⟨404, none, (deleteE [sampleUser] 1 true).store⟩
  ∧ deleteE (deleteE [sampleUser] 1 true).store 1 true
      = ⟨404, none, (deleteE [sampleUser] 1 true).store⟩ :=
  delete_then_read_404_delete_404 [sampleUser] 1 true (by decide)
    (by decide)

/-- C8: for every entity type, when the commit fails every mutating
handler that reached its persistence step reports 500 and the store
observable afterwards equals the store before — insert, update and
delete expose no partial write. -/
theorem mutation_commit_failure_rolls_back
    (sch : Schema) (hsch : sch ∈ entitySchemas)
    (store : List Rec) (b : Body) (rid : Nat) :
    ((∀ f ∈ sch.required, missingOrEmpty b f = false) →
      filterByFirst store sch.uniqueField
        ((b.lookup sch.uniqueField).join) = none →
      createE sch store (some b) false = ⟨500, none, store⟩)
  ∧ (∀ r, queryGet store rid = some r → b.isEmpty = false →
      updConflict sch store r b = false →
      updateE sch store rid (some b) false = ⟨500, none, store⟩)
  ∧ ((queryGet store rid).isSome →
      deleteE store rid false = ⟨500, none, store⟩) := by
  refine ⟨?_, ?_, ?_⟩
  · intro hreq hfresh
    have hne := schemas_required_ne_nil sch hsch
    have hb := body_ne_nil_of_required sch b hne hreq
    have hfind : sch.required.find? (missingOrEmpty b) = none :=
      List.find?_eq_none.mpr fun f hf => by simp [hreq f hf]
    have hfresh' : filterByFirst store sch.uniqueField
        ((b.lookup sch.uniqueField).bind fun a => a) = none := hfresh
    simp [createE, hb, hfind, hfresh']
  · intro r hget hb hconf
    simp [updateE, hget, hb, hconf]
  · intro h
    obtain ⟨r, hr⟩ := Option.isSome_iff_exists.mp h
    simp [deleteE, hr]

/-- C8 witness: failing commits on a concrete create, update and delete
against a one-user store. -/
theorem mutation_commit_failure_rolls_back_witness :
    createE userSchema [sampleUser]
        (some [("email", some "a@b.com"), ("password", some "x")]) false
      = ⟨500, none, [sampleUser]⟩
  ∧ updateE userSchema [sampleUser] 1
        (some [("email", some "e@f.com"), ("password", some "q")]) false
      = ⟨500, none, [sampleUser]⟩
  ∧ deleteE [sampleUser] 1 false = ⟨500, none, [sampleUser]⟩ := by
  have h := mutation_commit_failure_rolls_back userSchema (by decide)
    [sampleUser] [("email", some "a@b.com"), ("password", some "x")] 1
  have h' := mutation_commit_failure_rolls_back userSchema (by decide)
    [sampleUser] [("email", some "e@f.com"), ("password", some "q")] 1
  exact ⟨h.1 (by decide) (by decide),
    h'.2.1 sampleUser (by decide) (by decide) (by decide),
    h.2.2 (by decide)⟩
